import Mathlib

/-!
Verification of `causal_utils`: a synthetic-data generator for causal
inference (`random_data`) and a parenthesis matcher (`is_match_parenthesis`).

Real-valued numpy arrays are embedded as `List ℝ` / `List (List ℝ)` (rows).
The pseudorandom source is passed explicitly as a `RandomSource` together
with a natural-number state that advances with every primitive call, so the
generator is a pure function of the source, the state and its arguments.
Python exceptions are embedded as `Except DGPError`.
-/

abbrev Vec := List ℝ

abbrev Mat := List (List ℝ)

/-- Dot product of two coordinate lists (entries beyond the shorter list are
dropped; callers check conformance first, mirroring the numpy shape checks). -/
def dot (u v : Vec) : ℝ := (List.zipWith (· * ·) u v).sum

/-- Entry `i j` of a row-list matrix, with `0` outside the stored shape. -/
def mEntry (m : Mat) (i j : ℕ) : ℝ := (m.getD i []).getD j 0

/-- The `n × n` Mathlib matrix carried by a row-list matrix. -/
def toMatrix (m : Mat) (n : ℕ) : Matrix (Fin n) (Fin n) ℝ :=
  fun i j => mEntry m i j

/-- The matrix `np.identity(K)`: the `K × K` identity as a row list. -/
def identityMat (K : ℕ) : Mat :=
  (List.range K).map (fun i => (List.range K).map (fun j => if i = j then (1 : ℝ) else 0))

/-- A row-list matrix is a valid covariance matrix: square, and positive
semidefinite (hence symmetric) as a Mathlib matrix. -/
def IsValidCov (m : Mat) : Prop :=
  (∀ row ∈ m, row.length = m.length) ∧ Matrix.PosSemidef (toMatrix m m.length)

/-- Errors surfaced by the generator: numpy shape mismatches and the domain
error for an invalid covariance matrix. -/
inductive DGPError where
  | shapeMismatch
  | domainError
deriving DecidableEq

/-- A Python value that can be passed through `**kwargs`. -/
inductive PyVal where
  | scalar (x : ℝ)
  | vec (v : Vec)
  | mat (m : Mat)

/-- The `**kwargs` dictionary, as an association list of keyword names. -/
abbrev Kwargs := List (String × PyVal)

/-- Lookup `kwargs.get(key)` without a default: the first binding of `key`. -/
def kwLookup (kwargs : Kwargs) (key : String) : Option PyVal :=
  (kwargs.find? (fun e => e.1 == key)).map (fun e => e.2)

/-- Resolution `kwargs.get(key, dflt)` for a vector-valued parameter. -/
def getVec (kwargs : Kwargs) (key : String) (dflt : Vec) : Vec :=
  match kwLookup kwargs key with
  | some (.vec v) => v
  | _ => dflt

/-- Resolution `kwargs.get(key, dflt)` for a matrix-valued parameter. -/
def getMat (kwargs : Kwargs) (key : String) (dflt : Mat) : Mat :=
  match kwLookup kwargs key with
  | some (.mat m) => m
  | _ => dflt

/-- Resolution `kwargs.get(key, dflt)` for a scalar parameter. -/
def getScalar (kwargs : Kwargs) (key : String) (dflt : ℝ) : ℝ :=
  match kwLookup kwargs key with
  | some (.scalar x) => x
  | _ => dflt

/-- The six optional parameters of `random_data` after defaulting. -/
structure Params where
  mu : Vec
  beta : Vec
  theta : Vec
  delta : ℝ
  Sigma : Mat
  Gamma : Mat

/-- Lines 43-48 of `causal_utils.py`: resolve each optional parameter to its
`kwargs` entry or its default (`mu = 0`, `beta = theta = 1`, `delta = 3`,
`Sigma = identity(K)`, `Gamma = identity(2)`). -/
def resolveParams (K : ℕ) (kwargs : Kwargs) : Params where
  mu := getVec kwargs "mu" (List.replicate K 0)
  beta := getVec kwargs "beta" (List.replicate K 1)
  theta := getVec kwargs "theta" (List.replicate K 1)
  delta := getScalar kwargs "delta" 3
  Sigma := getMat kwargs "Sigma" (identityMat K)
  Gamma := getMat kwargs "Gamma" (identityMat 2)

/-- Modelled from the spec: the external pseudorandom draws behind the two
sampling primitives of §6 (numpy is not part of this repository).
`normalDraw s mean cov i j` is entry `(i, j)` of the multivariate-normal
draw made at state `s`; `bernoulliDraw s p` is the success of the Bernoulli
trial made at state `s` with success probability `p`. -/
structure RandomSource where
  normalDraw : ℕ → Vec → Mat → ℕ → ℕ → ℝ
  bernoulliDraw : ℕ → ℝ → Bool

/-- The raw `size × mean.length` matrix of normal draws made at state `s`. -/
def drawMat (rs : RandomSource) (s : ℕ) (mean : Vec) (cov : Mat) (size : ℕ) : Mat :=
  (List.range size).map
    (fun i => (List.range mean.length).map (fun j => rs.normalDraw s mean cov i j))

open Classical in
/-- Modelled from the spec: `np.random.multivariate_normal(mean, cov, size)`
(§6): it demands `cov` square with side `mean.length` (else a shape error)
and a valid (symmetric positive semidefinite) covariance (else a domain
error, §7), and returns `size` rows of length `mean.length` together with
the advanced state. -/
noncomputable def mvnSample (rs : RandomSource) (s : ℕ) (mean : Vec) (cov : Mat)
    (size : ℕ) : Except DGPError (Mat × ℕ) :=
  if cov.length = mean.length ∧ ∀ row ∈ cov, row.length = mean.length then
    if Matrix.PosSemidef (toMatrix cov cov.length) then
      .ok (drawMat rs s mean cov size, s + 1)
    else .error .domainError
  else .error .shapeMismatch

/-- Product `X.dot(b)` for `X` with `cols` columns: numpy validates the inner
dimensions from the array shapes before multiplying. -/
def matVecDot (cols : ℕ) (X : Mat) (b : Vec) : Except DGPError Vec :=
  if b.length = cols then .ok (X.map (fun row => dot row b)) else .error .shapeMismatch

/-- Modelled from the spec: elementwise vector addition (`beta + theta`)
requires equal lengths (§3 shape invariants; numpy broadcasting of
length-1 operands is not modelled). -/
def vecAdd (u v : Vec) : Except DGPError Vec :=
  if u.length = v.length then .ok (List.zipWith (· + ·) u v) else .error .shapeMismatch

/-- Column `j` of a row-list matrix (`epsilon[:, j]`). -/
def col (m : Mat) (j : ℕ) : Vec := m.map (fun row => row.getD j 0)

/-- Modelled from the spec: the standard-logistic CDF primitive
`scipy.stats.logistic.cdf` (§6, glossary): `1 / (1 + exp (-x))`. -/
noncomputable def logisticCDF (x : ℝ) : ℝ := 1 / (1 + Real.exp (-x))

/-- Modelled from the spec: `np.random.binomial(1, p)` (§6), a single
Bernoulli trial reported as a 0/1 outcome. -/
def RandomSource.binomialOne (rs : RandomSource) (s : ℕ) (p : ℝ) : ℕ :=
  if rs.bernoulliDraw s p then 1 else 0

/-- The observed tuple `(Y, T, X)` or, with unobservables, the 6-tuple
`(Y, T, X, Y0, Y1, pscore)` returned by `random_data`. -/
inductive RDOutput where
  | observed (Y : Vec) (T : List ℕ) (X : Mat)
  | withUnobservables (Y : Vec) (T : List ℕ) (X : Mat) (Y0 Y1 : Vec) (pscore : Vec)

/-- Lines 50-63 of `causal_utils.py`, after the parameters have been
resolved.  The random source `rs` and its state `s` replace the
process-wide numpy generator; every sampling-primitive call advances the
state (by 1 for a multivariate-normal call, by 1 per Bernoulli trial). -/
noncomputable def random_data_core (rs : RandomSource) (s : ℕ) (N : ℕ) (p : Params)
    (unobservables : Bool) : Except DGPError RDOutput :=
  (mvnSample rs s p.mu p.Sigma N).bind (fun Xs =>
    let X := Xs.1
    let s1 := Xs.2
    (matVecDot p.mu.length X p.beta).bind (fun Xbeta =>
      let pscore := Xbeta.map logisticCDF
      let T := pscore.mapIdx (fun i q => rs.binomialOne (s1 + i) q)
      (mvnSample rs (s1 + N) (List.replicate 2 0) p.Gamma N).bind (fun Es =>
        let epsilon := Es.1
        let Y0 := List.zipWith (· + ·) Xbeta (col epsilon 0)
        (vecAdd p.beta p.theta).bind (fun bt =>
          (matVecDot p.mu.length X bt).bind (fun Xbt =>
            let Y1 := List.zipWith (· + ·) (Xbt.map (fun x => p.delta + x)) (col epsilon 1)
            let Y := List.zipWith
              (fun (t : ℕ) (y : ℝ × ℝ) => ((1 : ℝ) - (t : ℝ)) * y.1 + (t : ℝ) * y.2)
              T (List.zip Y0 Y1)
            if unobservables then
              .ok (.withUnobservables Y T X Y0 Y1 pscore)
            else
              .ok (.observed Y T X))))))

/-- Function `random_data` from `causal_utils.py`, lines 43-63: resolve the optional
parameters from `kwargs` (lines 43-48), then run the generating process. -/
noncomputable def random_data (rs : RandomSource) (s : ℕ) (N : ℕ) (K : ℕ)
    (unobservables : Bool) (kwargs : Kwargs) : Except DGPError RDOutput :=
  random_data_core rs s N (resolveParams K kwargs) unobservables

/-- Function `is_match_parenthesis` from `causal_utils.py`, lines 66-83, with the
loop as a recursion.  The Python stack only ever holds copies of one fixed
marker, so it is represented by its length. -/
def matchParenAux (stack : ℕ) : List String → Bool
  | [] => stack == 0
  | cur :: rest =>
    if cur = "(" then matchParenAux (stack + 1) rest
    else if cur = ")" then
      if stack = 0 then false else matchParenAux (stack - 1) rest
    else matchParenAux stack rest

/-- Entry point `is_match_parenthesis(str_list)`: the stack starts empty. -/
def is_match_parenthesis (str_list : List String) : Bool :=
  matchParenAux 0 str_list

/-! ### The parenthesis matcher -/

/-- The balance condition of the specification: among the tokens `"("` and `")"`,
every prefix has at least as many opens as closes, and the whole list has
equally many of each. -/
def BalancedSpec (l : List String) : Prop :=
  (∀ p, p <+: l → p.count ")" ≤ p.count "(") ∧ l.count "(" = l.count ")"

/-- Loop invariant of the matcher: with `c` pending markers already on the
stack, the walk succeeds iff no prefix closes more than `c` plus its opens,
and the counts balance out exactly at the end. -/
theorem matchParenAux_iff (l : List String) : ∀ c : ℕ,
    matchParenAux c l = true ↔
      ((∀ p, p <+: l → p.count ")" ≤ c + p.count "(") ∧
        c + l.count "(" = l.count ")") := by
  induction l with
  | nil =>
    intro c
    simp only [matchParenAux, beq_iff_eq]
    constructor
    · rintro rfl
      exact ⟨fun p hp => by simp [List.prefix_nil.mp hp], by simp⟩
    · rintro ⟨-, h⟩
      simpa using h
  | cons a l ih =>
    intro c
    by_cases ha1 : a = "("
    · subst ha1
      rw [show matchParenAux c ("(" :: l) = matchParenAux (c + 1) l from rfl, ih (c + 1)]
      constructor
      · rintro ⟨H, htot⟩
        refine ⟨fun p hp => ?_, by simp only [List.count_cons]; simp; omega⟩
        rcases p with - | ⟨b, q⟩
        · simp
        · obtain ⟨hb, hq⟩ := List.cons_prefix_cons.mp hp
          subst hb
          have hH := H q hq
          simp only [List.count_cons]
          simp
          omega
      · rintro ⟨H, htot⟩
        constructor
        · intro p hp
          have hH := H ("(" :: p) (List.cons_prefix_cons.mpr ⟨rfl, hp⟩)
          simp only [List.count_cons] at hH
          simp at hH
          omega
        · simp only [List.count_cons] at htot
          simp at htot
          omega
    · by_cases ha2 : a = ")"
      · subst ha2
        cases c with
        | zero =>
          rw [show matchParenAux 0 (")" :: l) = false from by simp [matchParenAux]]
          constructor
          · intro h
            exact absurd h (by simp)
          · rintro ⟨H, -⟩
            exfalso
            have hH := H [")"] ⟨l, rfl⟩
            simp at hH
        | succ c' =>
          rw [show matchParenAux (c' + 1) (")" :: l) = matchParenAux c' l from by
              simp [matchParenAux], ih c']
          constructor
          · rintro ⟨H, htot⟩
            refine ⟨fun p hp => ?_, by simp only [List.count_cons]; simp; omega⟩
            rcases p with - | ⟨b, q⟩
            · simp
            · obtain ⟨hb, hq⟩ := List.cons_prefix_cons.mp hp
              subst hb
              have hH := H q hq
              simp only [List.count_cons]
              simp
              omega
          · rintro ⟨H, htot⟩
            constructor
            · intro p hp
              have hH := H (")" :: p) (List.cons_prefix_cons.mpr ⟨rfl, hp⟩)
              simp only [List.count_cons] at hH
              simp at hH
              omega
            · simp only [List.count_cons] at htot
              simp at htot
              omega
      · rw [show matchParenAux c (a :: l) = matchParenAux c l from by
            simp [matchParenAux, ha1, ha2], ih c]
        constructor
        · rintro ⟨H, htot⟩
          refine ⟨fun p hp => ?_, by simp only [List.count_cons]; simp [ha1, ha2]; omega⟩
          rcases p with - | ⟨b, q⟩
          · simp
          · obtain ⟨hb, hq⟩ := List.cons_prefix_cons.mp hp
            subst hb
            have hH := H q hq
            simp only [List.count_cons]
            simp [ha1, ha2]
            omega
        · rintro ⟨H, htot⟩
          constructor
          · intro p hp
            have hH := H (a :: p) (List.cons_prefix_cons.mpr ⟨rfl, hp⟩)
            simp only [List.count_cons] at hH
            simp [ha1, ha2] at hH
            omega
          · simp only [List.count_cons] at htot
            simp [ha1, ha2] at htot
            omega

/-- C2: `is_match_parenthesis tokens` is `true` iff, restricting attention to
the tokens `"("` and `")"`, every prefix contains at least as many `"("` as
`")"` and the whole list contains equally many of each; in particular it is
`true` on `[]`, is `false` whenever some prefix closes an unopened
parenthesis, ignores all other tokens, and is total. -/
theorem is_match_parenthesis_iff_balanced (l : List String) :
    is_match_parenthesis l = true ↔ BalancedSpec l := by
  have h := matchParenAux_iff l 0
  simp only [Nat.zero_add] at h
  exact h.trans (by exact Iff.rfl)

/-! ### Basic lemmas about the building blocks of the generator -/

theorem except_bind_ok {α β : Type} (a : α) (f : α → Except DGPError β) :
    (Except.ok a).bind f = f a := rfl

theorem except_bind_error {α β : Type} (e : DGPError) (f : α → Except DGPError β) :
    (Except.error e : Except DGPError α).bind f = .error e := rfl

theorem identityMat_length (K : ℕ) : (identityMat K).length = K := by
  simp [identityMat]

theorem identityMat_rows (K : ℕ) :
    ∀ row ∈ identityMat K, row.length = (identityMat K).length := by
  intro row hrow
  simp only [identityMat, List.mem_map, List.mem_range] at hrow
  obtain ⟨i, -, rfl⟩ := hrow
  simp [identityMat]

theorem mEntry_identityMat (K i j : ℕ) (hi : i < K) (hj : j < K) :
    mEntry (identityMat K) i j = if i = j then (1 : ℝ) else 0 := by
  have hlen : i < (identityMat K).length := by simpa [identityMat_length] using hi
  have h1 : (identityMat K).getD i [] =
      (List.range K).map (fun j => if i = j then (1 : ℝ) else 0) := by
    rw [List.getD_eq_getElem _ _ hlen]
    simp [identityMat]
  have hlen2 : j < ((List.range K).map (fun j => if i = j then (1 : ℝ) else 0)).length := by
    simpa using hj
  unfold mEntry
  rw [h1, List.getD_eq_getElem _ _ hlen2]
  simp

theorem toMatrix_identityMat (K : ℕ) :
    toMatrix (identityMat K) K = (1 : Matrix (Fin K) (Fin K) ℝ) := by
  funext i j
  show mEntry (identityMat K) i j = _
  rw [mEntry_identityMat K i j i.isLt j.isLt, Matrix.one_apply]
  simp [Fin.val_inj]

theorem isValidCov_identityMat (K : ℕ) : IsValidCov (identityMat K) := by
  refine ⟨identityMat_rows K, ?_⟩
  rw [identityMat_length, toMatrix_identityMat]
  exact Matrix.PosSemidef.one

theorem mvnSample_ok (rs : RandomSource) (s : ℕ) (mean : Vec) (cov : Mat) (size : ℕ)
    (hlen : cov.length = mean.length) (hvalid : IsValidCov cov) :
    mvnSample rs s mean cov size = .ok (drawMat rs s mean cov size, s + 1) := by
  have hrows : ∀ row ∈ cov, row.length = mean.length := fun row hrow =>
    (hvalid.1 row hrow).trans hlen
  unfold mvnSample
  rw [if_pos ⟨hlen, hrows⟩, if_pos hvalid.2]

theorem mvnSample_shape_err (rs : RandomSource) (s : ℕ) (mean : Vec) (cov : Mat)
    (size : ℕ)
    (h : ¬(cov.length = mean.length ∧ ∀ row ∈ cov, row.length = mean.length)) :
    mvnSample rs s mean cov size = .error .shapeMismatch := by
  unfold mvnSample
  rw [if_neg h]

theorem mvnSample_domain_err (rs : RandomSource) (s : ℕ) (mean : Vec) (cov : Mat)
    (size : ℕ)
    (hshape : cov.length = mean.length ∧ ∀ row ∈ cov, row.length = mean.length)
    (h : ¬Matrix.PosSemidef (toMatrix cov cov.length)) :
    mvnSample rs s mean cov size = .error .domainError := by
  unfold mvnSample
  rw [if_pos hshape, if_neg h]

theorem matVecDot_ok (cols : ℕ) (X : Mat) (b : Vec) (h : b.length = cols) :
    matVecDot cols X b = .ok (X.map (fun row => dot row b)) := by
  unfold matVecDot
  rw [if_pos h]

theorem matVecDot_err (cols : ℕ) (X : Mat) (b : Vec) (h : ¬b.length = cols) :
    matVecDot cols X b = .error .shapeMismatch := by
  unfold matVecDot
  rw [if_neg h]

theorem vecAdd_ok (u v : Vec) (h : u.length = v.length) :
    vecAdd u v = .ok (List.zipWith (· + ·) u v) := by
  unfold vecAdd
  rw [if_pos h]

theorem vecAdd_err (u v : Vec) (h : ¬u.length = v.length) :
    vecAdd u v = .error .shapeMismatch := by
  unfold vecAdd
  rw [if_neg h]

/-- The resolved parameters conform: valid covariance matrices, `Sigma`
square with side `mu.length`, `Gamma` 2×2, and `beta` and `theta` of
the length of `mu`. -/
def Conform (p : Params) : Prop :=
  IsValidCov p.Sigma ∧ p.Sigma.length = p.mu.length ∧
    IsValidCov p.Gamma ∧ p.Gamma.length = 2 ∧
    p.beta.length = p.mu.length ∧ p.theta.length = p.beta.length

/-- The covariate matrix a successful run draws. -/
def pipeX (rs : RandomSource) (s N : ℕ) (p : Params) : Mat :=
  drawMat rs s p.mu p.Sigma N

/-- The linear predictor `X.dot(beta)` of a successful run. -/
noncomputable def pipeXbeta (rs : RandomSource) (s N : ℕ) (p : Params) : Vec :=
  (pipeX rs s N p).map (fun row => dot row p.beta)

/-- The propensity scores `logistic.cdf(Xbeta)` of a successful run. -/
noncomputable def pipePscore (rs : RandomSource) (s N : ℕ) (p : Params) : Vec :=
  (pipeXbeta rs s N p).map logisticCDF

/-- The treatment draws of a successful run. -/
noncomputable def pipeT (rs : RandomSource) (s N : ℕ) (p : Params) : List ℕ :=
  (pipePscore rs s N p).mapIdx (fun i q => rs.binomialOne (s + 1 + i) q)

/-- The error-term matrix of a successful run. -/
def pipeEps (rs : RandomSource) (s N : ℕ) (p : Params) : Mat :=
  drawMat rs (s + 1 + N) (List.replicate 2 0) p.Gamma N

/-- Vector `Y0 = Xbeta + epsilon[:, 0]` of a successful run. -/
noncomputable def pipeY0 (rs : RandomSource) (s N : ℕ) (p : Params) : Vec :=
  List.zipWith (· + ·) (pipeXbeta rs s N p) (col (pipeEps rs s N p) 0)

/-- Vector `Y1 = delta + X.dot(beta + theta) + epsilon[:, 1]` of a successful run. -/
noncomputable def pipeY1 (rs : RandomSource) (s N : ℕ) (p : Params) : Vec :=
  List.zipWith (· + ·)
    (((pipeX rs s N p).map
        (fun row => dot row (List.zipWith (· + ·) p.beta p.theta))).map
      (fun x => p.delta + x))
    (col (pipeEps rs s N p) 1)

/-- Vector `Y = (1 - T) * Y0 + T * Y1` of a successful run. -/
noncomputable def pipeY (rs : RandomSource) (s N : ℕ) (p : Params) : Vec :=
  List.zipWith
    (fun (t : ℕ) (y : ℝ × ℝ) => ((1 : ℝ) - (t : ℝ)) * y.1 + (t : ℝ) * y.2)
    (pipeT rs s N p) (List.zip (pipeY0 rs s N p) (pipeY1 rs s N p))

/-- The value a successful run of the generator produces: the same
computation as `random_data_core` with every check already passed. -/
noncomputable def runPipeline (rs : RandomSource) (s : ℕ) (N : ℕ) (p : Params)
    (unobservables : Bool) : RDOutput :=
  if unobservables then
    .withUnobservables (pipeY rs s N p) (pipeT rs s N p) (pipeX rs s N p)
      (pipeY0 rs s N p) (pipeY1 rs s N p) (pipePscore rs s N p)
  else .observed (pipeY rs s N p) (pipeT rs s N p) (pipeX rs s N p)

/-- With conforming parameters every check passes and `random_data_core`
returns the pipeline value. -/
theorem random_data_core_ok (rs : RandomSource) (s N : ℕ) (p : Params) (u : Bool)
    (h : Conform p) :
    random_data_core rs s N p u = .ok (runPipeline rs s N p u) := by
  obtain ⟨hS, hSl, hG, hGl, hb, ht⟩ := h
  simp only [random_data_core, mvnSample_ok, matVecDot_ok, vecAdd_ok, except_bind_ok,
    hS, hG, hSl, hGl, hb, ht, List.length_replicate, List.length_zipWith, min_self]
  cases u <;> rfl

/-- With conforming resolved parameters `random_data` returns the pipeline
value. -/
theorem random_data_ok (rs : RandomSource) (s N K : ℕ) (u : Bool) (kwargs : Kwargs)
    (h : Conform (resolveParams K kwargs)) :
    random_data rs s N K u kwargs =
      .ok (runPipeline rs s N (resolveParams K kwargs) u) := by
  rw [random_data]
  exact random_data_core_ok rs s N _ u h

/-! ### Inversion: what a successful run must look like -/

theorem mvnSample_ok_inv {rs : RandomSource} {s : ℕ} {mean : Vec} {cov : Mat}
    {size : ℕ} {v : Mat × ℕ} (h : mvnSample rs s mean cov size = .ok v) :
    v = (drawMat rs s mean cov size, s + 1) := by
  unfold mvnSample at h
  split_ifs at h
  injection h with h1
  exact h1.symm

theorem matVecDot_ok_inv {cols : ℕ} {X : Mat} {b : Vec} {v : Vec}
    (h : matVecDot cols X b = .ok v) : v = X.map (fun row => dot row b) := by
  unfold matVecDot at h
  split_ifs at h
  injection h with h1
  exact h1.symm

theorem vecAdd_ok_inv {u v w : Vec} (h : vecAdd u v = .ok w) :
    w = List.zipWith (· + ·) u v := by
  unfold vecAdd at h
  split_ifs at h
  injection h with h1
  exact h1.symm

/-- Any successful run of the generating process returns the pipeline value. -/
theorem random_data_core_ok_inv {rs : RandomSource} {s N : ℕ} {p : Params}
    {u : Bool} {out : RDOutput} (h : random_data_core rs s N p u = .ok out) :
    out = runPipeline rs s N p u := by
  unfold random_data_core at h
  cases hX : mvnSample rs s p.mu p.Sigma N with
  | error e =>
    rw [hX, except_bind_error] at h
    exact Except.noConfusion h
  | ok Xs =>
    obtain rfl : Xs = _ := mvnSample_ok_inv hX
    rw [hX] at h
    simp only [except_bind_ok] at h
    cases hXb : matVecDot p.mu.length (drawMat rs s p.mu p.Sigma N) p.beta with
    | error e =>
      rw [hXb, except_bind_error] at h
      exact Except.noConfusion h
    | ok Xbeta =>
      obtain rfl : Xbeta = _ := matVecDot_ok_inv hXb
      rw [hXb] at h
      simp only [except_bind_ok] at h
      cases hE : mvnSample rs (s + 1 + N) (List.replicate 2 0) p.Gamma N with
      | error e =>
        rw [hE, except_bind_error] at h
        exact Except.noConfusion h
      | ok Es =>
        obtain rfl : Es = _ := mvnSample_ok_inv hE
        rw [hE] at h
        simp only [except_bind_ok] at h
        cases hbt : vecAdd p.beta p.theta with
        | error e =>
          rw [hbt, except_bind_error] at h
          exact Except.noConfusion h
        | ok bt =>
          obtain rfl : bt = _ := vecAdd_ok_inv hbt
          rw [hbt] at h
          simp only [except_bind_ok] at h
          cases hXbt : matVecDot p.mu.length (drawMat rs s p.mu p.Sigma N)
              (List.zipWith (· + ·) p.beta p.theta) with
          | error e =>
            rw [hXbt, except_bind_error] at h
            exact Except.noConfusion h
          | ok Xbt =>
            obtain rfl : Xbt = _ := matVecDot_ok_inv hXbt
            rw [hXbt] at h
            simp only [except_bind_ok] at h
            cases u with
            | false =>
              simp only [Bool.false_eq_true, if_false] at h
              injection h with h1
              rw [← h1]
              rfl
            | true =>
              simp only [if_true] at h
              injection h with h1
              rw [← h1]
              rfl

/-- Any successful call of `random_data` returns the pipeline value at the
resolved parameters. -/
theorem random_data_ok_inv {rs : RandomSource} {s N K : ℕ} {u : Bool}
    {kwargs : Kwargs} {out : RDOutput}
    (h : random_data rs s N K u kwargs = .ok out) :
    out = runPipeline rs s N (resolveParams K kwargs) u :=
  random_data_core_ok_inv (by rw [← random_data]; exact h)

/-! ### Output accessors and shapes -/

/-- The observed-outcome component of a returned tuple. -/
def RDOutput.Yvec : RDOutput → Vec
  | .observed Y _ _ => Y
  | .withUnobservables Y _ _ _ _ _ => Y

/-- The treatment component of a returned tuple. -/
def RDOutput.Tvec : RDOutput → List ℕ
  | .observed _ T _ => T
  | .withUnobservables _ T _ _ _ _ => T

/-- The covariate component of a returned tuple. -/
def RDOutput.Xmat : RDOutput → Mat
  | .observed _ _ X => X
  | .withUnobservables _ _ X _ _ _ => X

/-- The `Y0` component of a 6-tuple (empty for a 3-tuple). -/
def RDOutput.Y0vec : RDOutput → Vec
  | .observed _ _ _ => []
  | .withUnobservables _ _ _ Y0 _ _ => Y0

/-- The `Y1` component of a 6-tuple (empty for a 3-tuple). -/
def RDOutput.Y1vec : RDOutput → Vec
  | .observed _ _ _ => []
  | .withUnobservables _ _ _ _ Y1 _ => Y1

/-- The propensity-score component of a 6-tuple (empty for a 3-tuple). -/
def RDOutput.pscoreVec : RDOutput → Vec
  | .observed _ _ _ => []
  | .withUnobservables _ _ _ _ _ ps => ps

/-- Whether the returned tuple is the 6-tuple `(Y, T, X, Y0, Y1, pscore)`
rather than the 3-tuple `(Y, T, X)`. -/
def RDOutput.isWithUnobs : RDOutput → Bool
  | .observed _ _ _ => false
  | .withUnobservables _ _ _ _ _ _ => true

theorem drawMat_length (rs : RandomSource) (s : ℕ) (mean : Vec) (cov : Mat)
    (size : ℕ) : (drawMat rs s mean cov size).length = size := by
  simp [drawMat]

theorem drawMat_row_length (rs : RandomSource) (s : ℕ) (mean : Vec) (cov : Mat)
    (size : ℕ) : ∀ row ∈ drawMat rs s mean cov size, row.length = mean.length := by
  intro row hrow
  simp only [drawMat, List.mem_map, List.mem_range] at hrow
  obtain ⟨i, -, rfl⟩ := hrow
  simp

theorem col_length (m : Mat) (j : ℕ) : (col m j).length = m.length := by
  simp [col]

theorem pipeX_length (rs : RandomSource) (s N : ℕ) (p : Params) :
    (pipeX rs s N p).length = N := drawMat_length rs s p.mu p.Sigma N

theorem pipeX_row_length (rs : RandomSource) (s N : ℕ) (p : Params) :
    ∀ row ∈ pipeX rs s N p, row.length = p.mu.length :=
  drawMat_row_length rs s p.mu p.Sigma N

theorem pipeXbeta_length (rs : RandomSource) (s N : ℕ) (p : Params) :
    (pipeXbeta rs s N p).length = N := by
  simp [pipeXbeta, pipeX_length]

theorem pipePscore_length (rs : RandomSource) (s N : ℕ) (p : Params) :
    (pipePscore rs s N p).length = N := by
  simp [pipePscore, pipeXbeta_length]

theorem pipeT_length (rs : RandomSource) (s N : ℕ) (p : Params) :
    (pipeT rs s N p).length = N := by
  simp [pipeT, pipePscore_length]

theorem pipeEps_length (rs : RandomSource) (s N : ℕ) (p : Params) :
    (pipeEps rs s N p).length = N := drawMat_length rs (s + 1 + N) _ p.Gamma N

theorem pipeY0_length (rs : RandomSource) (s N : ℕ) (p : Params) :
    (pipeY0 rs s N p).length = N := by
  simp [pipeY0, pipeXbeta_length, col_length, pipeEps_length]

theorem pipeY1_length (rs : RandomSource) (s N : ℕ) (p : Params) :
    (pipeY1 rs s N p).length = N := by
  simp [pipeY1, pipeX_length, col_length, pipeEps_length]

theorem pipeY_length (rs : RandomSource) (s N : ℕ) (p : Params) :
    (pipeY rs s N p).length = N := by
  simp [pipeY, pipeT_length, pipeY0_length, pipeY1_length]

theorem logisticCDF_pos (x : ℝ) : 0 < logisticCDF x := by
  unfold logisticCDF
  positivity

theorem logisticCDF_lt_one (x : ℝ) : logisticCDF x < 1 := by
  unfold logisticCDF
  rw [div_lt_one (by positivity)]
  have h := Real.exp_pos (-x)
  linarith

/-! ### Concrete instances used to exhibit the theorems -/

/-- A concrete random source: every normal draw is `0` and every Bernoulli
trial succeeds. -/
def rsOne : RandomSource where
  normalDraw := fun _ _ _ _ _ => 0
  bernoulliDraw := fun _ _ => true

/-- With no keyword arguments the resolved defaults conform. -/
theorem conform_defaults (K : ℕ) : Conform (resolveParams K []) := by
  refine ⟨isValidCov_identityMat K, ?_, isValidCov_identityMat 2, ?_, ?_, ?_⟩ <;>
    simp [resolveParams, getVec, getMat, kwLookup, identityMat_length]

/-- The pipeline value of the sample call with unobservables. -/
noncomputable def outTrue : RDOutput := runPipeline rsOne 0 1 (resolveParams 1 []) true

/-- The pipeline value of the sample call without unobservables. -/
noncomputable def outFalse : RDOutput := runPipeline rsOne 0 1 (resolveParams 1 []) false

theorem random_data_outTrue : random_data rsOne 0 1 1 true [] = .ok outTrue :=
  random_data_ok rsOne 0 1 1 true [] (conform_defaults 1)

theorem random_data_outFalse : random_data rsOne 0 1 1 false [] = .ok outFalse :=
  random_data_ok rsOne 0 1 1 false [] (conform_defaults 1)

/-! ### C3: arity of the returned tuple -/

theorem runPipeline_Yvec (rs : RandomSource) (s N : ℕ) (p : Params) (u : Bool) :
    (runPipeline rs s N p u).Yvec = pipeY rs s N p := by
  cases u <;> rfl

theorem runPipeline_Tvec (rs : RandomSource) (s N : ℕ) (p : Params) (u : Bool) :
    (runPipeline rs s N p u).Tvec = pipeT rs s N p := by
  cases u <;> rfl

theorem runPipeline_Xmat (rs : RandomSource) (s N : ℕ) (p : Params) (u : Bool) :
    (runPipeline rs s N p u).Xmat = pipeX rs s N p := by
  cases u <;> rfl

/-- C3: for every successful call of `random_data`, the result is the
6-tuple `(Y, T, X, Y0, Y1, pscore)` exactly when `unobservables` is true,
and the 3-tuple `(Y, T, X)` otherwise. -/
theorem random_data_tuple_arity (rs : RandomSource) (s N K : ℕ) (u : Bool)
    (kwargs : Kwargs) (out : RDOutput)
    (h : random_data rs s N K u kwargs = .ok out) :
    out.isWithUnobs = u := by
  obtain rfl := random_data_ok_inv h
  cases u <;> rfl

/-- Witness for C3: a concrete successful call with `unobservables = true`
returns the 6-tuple form. -/
theorem random_data_tuple_arity_witness :
    random_data rsOne 0 1 1 true [] = .ok outTrue ∧ outTrue.isWithUnobs = true :=
  ⟨random_data_outTrue,
    random_data_tuple_arity rsOne 0 1 1 true [] outTrue random_data_outTrue⟩

/-! ### C5: output shapes under default parameters -/

theorem pipeX_getD_length (rs : RandomSource) (s N : ℕ) (p : Params) (i : ℕ)
    (hi : i < N) : ((pipeX rs s N p).getD i []).length = p.mu.length := by
  have hil : i < (pipeX rs s N p).length := by rw [pipeX_length]; exact hi
  rw [List.getD_eq_getElem _ _ hil]
  exact pipeX_row_length rs s N p _ (List.getElem_mem hil)

/-- C5: for every `N ≥ 0` and `K ≥ 1`, a successful call of `random_data`
with default optional parameters returns `Y` of length `N`, `T` of length
`N`, and `X` of shape `N × K`. -/
theorem random_data_default_shapes (rs : RandomSource) (s N K : ℕ) (u : Bool)
    (out : RDOutput) (hK : 1 ≤ K)
    (h : random_data rs s N K u [] = .ok out) :
    out.Yvec.length = N ∧ out.Tvec.length = N ∧ out.Xmat.length = N ∧
      ∀ i, i < N → (out.Xmat.getD i []).length = K := by
  obtain rfl := random_data_ok_inv h
  rw [runPipeline_Yvec, runPipeline_Tvec, runPipeline_Xmat]
  refine ⟨pipeY_length _ _ _ _, pipeT_length _ _ _ _, pipeX_length _ _ _ _, ?_⟩
  intro i hi
  rw [pipeX_getD_length _ _ _ _ i hi]
  simp [resolveParams, getVec, kwLookup]

/-- Witness for C5: the concrete successful call with `N = K = 1` has all
the stated lengths. -/
theorem random_data_default_shapes_witness :
    1 ≤ 1 ∧ random_data rsOne 0 1 1 false [] = .ok outFalse ∧
      outFalse.Yvec.length = 1 ∧ outFalse.Tvec.length = 1 ∧
      outFalse.Xmat.length = 1 ∧ (outFalse.Xmat.getD 0 []).length = 1 := by
  have h := random_data_default_shapes rsOne 0 1 1 false outFalse (by decide)
    random_data_outFalse
  exact ⟨by decide, random_data_outFalse, h.1, h.2.1, h.2.2.1, h.2.2.2 0 (by decide)⟩

/-! ### C6: the call with `N = 0` succeeds with empty arrays -/

/-- At `N = 0` the pipeline value consists of empty arrays only. -/
theorem runPipeline_zero (rs : RandomSource) (s : ℕ) (p : Params) (u : Bool) :
    runPipeline rs s 0 p u =
      if u then .withUnobservables [] [] [] [] [] [] else .observed [] [] [] := by
  have hY := List.length_eq_zero.mp (pipeY_length rs s 0 p)
  have hT := List.length_eq_zero.mp (pipeT_length rs s 0 p)
  have hX := List.length_eq_zero.mp (pipeX_length rs s 0 p)
  have hY0 := List.length_eq_zero.mp (pipeY0_length rs s 0 p)
  have hY1 := List.length_eq_zero.mp (pipeY1_length rs s 0 p)
  have hps := List.length_eq_zero.mp (pipePscore_length rs s 0 p)
  cases u <;> simp [runPipeline, hY, hT, hX, hY0, hY1, hps]

/-- C6: calling `random_data` with `N = 0` and otherwise valid (conforming)
parameters does not fail, and every array in the returned tuple is empty. -/
theorem random_data_N0_empty (rs : RandomSource) (s K : ℕ) (u : Bool)
    (kwargs : Kwargs) (h : Conform (resolveParams K kwargs)) :
    random_data rs s 0 K u kwargs =
      .ok (if u then .withUnobservables [] [] [] [] [] [] else .observed [] [] []) := by
  rw [random_data_ok rs s 0 K u kwargs h, runPipeline_zero]

/-- Witness for C6: the concrete call with `N = 0`, `K = 1`. -/
theorem random_data_N0_empty_witness :
    Conform (resolveParams 1 []) ∧
      random_data rsOne 0 0 1 true [] =
        .ok (.withUnobservables [] [] [] [] [] []) :=
  ⟨conform_defaults 1, random_data_N0_empty rsOne 0 1 true [] (conform_defaults 1)⟩

/-! ### C1: the switching equation -/

theorem runPipeline_true_Y0vec (rs : RandomSource) (s N : ℕ) (p : Params) :
    (runPipeline rs s N p true).Y0vec = pipeY0 rs s N p := rfl

theorem runPipeline_true_Y1vec (rs : RandomSource) (s N : ℕ) (p : Params) :
    (runPipeline rs s N p true).Y1vec = pipeY1 rs s N p := rfl

theorem runPipeline_true_pscoreVec (rs : RandomSource) (s N : ℕ) (p : Params) :
    (runPipeline rs s N p true).pscoreVec = pipePscore rs s N p := rfl

theorem pipeY_getD (rs : RandomSource) (s N : ℕ) (p : Params) (i : ℕ) (hi : i < N) :
    (pipeY rs s N p).getD i 0 =
      (1 - ((pipeT rs s N p).getD i 0 : ℝ)) * (pipeY0 rs s N p).getD i 0 +
        ((pipeT rs s N p).getD i 0 : ℝ) * (pipeY1 rs s N p).getD i 0 := by
  have hY : i < (pipeY rs s N p).length := by rw [pipeY_length]; exact hi
  have hT : i < (pipeT rs s N p).length := by rw [pipeT_length]; exact hi
  have hY0 : i < (pipeY0 rs s N p).length := by rw [pipeY0_length]; exact hi
  have hY1 : i < (pipeY1 rs s N p).length := by rw [pipeY1_length]; exact hi
  rw [List.getD_eq_getElem _ _ hY, List.getD_eq_getElem _ _ hT,
    List.getD_eq_getElem _ _ hY0, List.getD_eq_getElem _ _ hY1]
  unfold pipeY
  rw [List.getElem_zipWith, List.getElem_zip]

/-- C1: for every successful call of `random_data` with
`unobservables = true`, the observed outcome satisfies
`Y[i] = (1 - T[i]) * Y0[i] + T[i] * Y1[i]` exactly, for every `i < N`. -/
theorem random_data_switching_eq (rs : RandomSource) (s N K : ℕ) (kwargs : Kwargs)
    (out : RDOutput) (h : random_data rs s N K true kwargs = .ok out) :
    ∀ i, i < N →
      out.Yvec.getD i 0 =
        (1 - (out.Tvec.getD i 0 : ℝ)) * out.Y0vec.getD i 0 +
          (out.Tvec.getD i 0 : ℝ) * out.Y1vec.getD i 0 := by
  obtain rfl := random_data_ok_inv h
  intro i hi
  rw [runPipeline_Yvec, runPipeline_Tvec, runPipeline_true_Y0vec,
    runPipeline_true_Y1vec]
  exact pipeY_getD rs s N (resolveParams K kwargs) i hi

/-- Witness for C1: the switching equation at entry `0` of the concrete
successful call with `N = 1`. -/
theorem random_data_switching_eq_witness :
    random_data rsOne 0 1 1 true [] = .ok outTrue ∧
      outTrue.Yvec.getD 0 0 =
        (1 - (outTrue.Tvec.getD 0 0 : ℝ)) * outTrue.Y0vec.getD 0 0 +
          (outTrue.Tvec.getD 0 0 : ℝ) * outTrue.Y1vec.getD 0 0 :=
  ⟨random_data_outTrue,
    random_data_switching_eq rsOne 0 1 1 [] outTrue random_data_outTrue 0 Nat.one_pos⟩

/-! ### C4: treatment is binary, propensity scores lie in (0, 1) -/

theorem pipeT_getD_binary (rs : RandomSource) (s N : ℕ) (p : Params) (i : ℕ) :
    (pipeT rs s N p).getD i 0 = 0 ∨ (pipeT rs s N p).getD i 0 = 1 := by
  by_cases hi : i < (pipeT rs s N p).length
  · rw [List.getD_eq_getElem _ _ hi]
    unfold pipeT
    rw [List.getElem_mapIdx]
    unfold RandomSource.binomialOne
    split_ifs <;> simp
  · rw [List.getD_eq_default _ _ (le_of_not_lt hi)]
    left
    rfl

theorem pipePscore_getD_bounds (rs : RandomSource) (s N : ℕ) (p : Params) (i : ℕ)
    (hi : i < N) :
    0 < (pipePscore rs s N p).getD i 0 ∧ (pipePscore rs s N p).getD i 0 < 1 := by
  have hl : i < (pipePscore rs s N p).length := by rw [pipePscore_length]; exact hi
  rw [List.getD_eq_getElem _ _ hl]
  unfold pipePscore
  rw [List.getElem_map]
  exact ⟨logisticCDF_pos _, logisticCDF_lt_one _⟩

/-- C4: for every successful call of `random_data`, every entry of the
returned treatment vector is `0` or `1`, and every entry of the returned
propensity-score vector lies strictly between `0` and `1` (in the real
embedding every linear-predictor entry is finite). -/
theorem random_data_T_binary_pscore_open (rs : RandomSource) (s N K : ℕ)
    (u : Bool) (kwargs : Kwargs) (out : RDOutput)
    (h : random_data rs s N K u kwargs = .ok out) :
    (∀ i, out.Tvec.getD i 0 = 0 ∨ out.Tvec.getD i 0 = 1) ∧
      (∀ i, i < out.pscoreVec.length →
        0 < out.pscoreVec.getD i 0 ∧ out.pscoreVec.getD i 0 < 1) := by
  obtain rfl := random_data_ok_inv h
  constructor
  · intro i
    rw [runPipeline_Tvec]
    exact pipeT_getD_binary rs s N (resolveParams K kwargs) i
  · intro i hi
    cases u with
    | false => simp [runPipeline, RDOutput.pscoreVec] at hi
    | true =>
      rw [runPipeline_true_pscoreVec] at hi ⊢
      rw [pipePscore_length] at hi
      exact pipePscore_getD_bounds rs s N (resolveParams K kwargs) i hi

/-- Witness for C4: entry `0` of the concrete successful call. -/
theorem random_data_T_binary_pscore_open_witness :
    random_data rsOne 0 1 1 true [] = .ok outTrue ∧
      (outTrue.Tvec.getD 0 0 = 0 ∨ outTrue.Tvec.getD 0 0 = 1) ∧
      0 < outTrue.pscoreVec.getD 0 0 ∧ outTrue.pscoreVec.getD 0 0 < 1 := by
  have h := random_data_T_binary_pscore_open rsOne 0 1 1 true [] outTrue
    random_data_outTrue
  have hlen : 0 < outTrue.pscoreVec.length := by
    rw [show outTrue.pscoreVec = pipePscore rsOne 0 1 (resolveParams 1 []) from rfl,
      pipePscore_length]
    exact Nat.one_pos
  exact ⟨random_data_outTrue, h.1 0, (h.2 0 hlen).1, (h.2 0 hlen).2⟩

/-! ### C9: determinism given the random source -/

/-- C9: two calls of `random_data` made with identically behaving random
sources at the same state and with identical parameters produce identical
outputs: in this embedding the generator is a pure function of the source,
its state and its arguments. -/
theorem random_data_deterministic (rs1 rs2 : RandomSource) (s N K : ℕ) (u : Bool)
    (kwargs : Kwargs) (h1 : rs1.normalDraw = rs2.normalDraw)
    (h2 : rs1.bernoulliDraw = rs2.bernoulliDraw) :
    random_data rs1 s N K u kwargs = random_data rs2 s N K u kwargs := by
  have h : rs1 = rs2 := by
    cases rs1
    cases rs2
    cases h1
    cases h2
    rfl
  rw [h]

/-- Witness for C9: the same concrete source twice. -/
theorem random_data_deterministic_witness :
    rsOne.normalDraw = rsOne.normalDraw ∧
      rsOne.bernoulliDraw = rsOne.bernoulliDraw ∧
      random_data rsOne 0 1 1 true [] = random_data rsOne 0 1 1 true [] :=
  ⟨rfl, rfl, random_data_deterministic rsOne rsOne 0 1 1 true [] rfl rfl⟩

/-! ### C10: unrecognized keyword arguments are ignored -/

/-- The keyword names `random_data` actually reads from `kwargs`. -/
def recognizedKey (k : String) : Bool :=
  k == "mu" || k == "beta" || k == "theta" || k == "delta" ||
    k == "Sigma" || k == "Gamma"

theorem kwLookup_cons_of_ne (key k : String) (v : PyVal) (kwargs : Kwargs)
    (h : (key == k) = false) :
    kwLookup ((key, v) :: kwargs) k = kwLookup kwargs k := by
  unfold kwLookup
  rw [List.find?_cons_of_neg _ (by simp [h])]

theorem resolveParams_cons_unrecognized (K : ℕ) (key : String) (v : PyVal)
    (kwargs : Kwargs) (hk : recognizedKey key = false) :
    resolveParams K ((key, v) :: kwargs) = resolveParams K kwargs := by
  simp only [recognizedKey, Bool.or_eq_false_iff] at hk
  obtain ⟨⟨⟨⟨⟨h1, h2⟩, h3⟩, h4⟩, h5⟩, h6⟩ := hk
  unfold resolveParams getVec getMat getScalar
  rw [kwLookup_cons_of_ne key "mu" v kwargs h1,
    kwLookup_cons_of_ne key "beta" v kwargs h2,
    kwLookup_cons_of_ne key "theta" v kwargs h3,
    kwLookup_cons_of_ne key "delta" v kwargs h4,
    kwLookup_cons_of_ne key "Sigma" v kwargs h5,
    kwLookup_cons_of_ne key "Gamma" v kwargs h6]

/-- C10: `random_data` accepts extra keyword arguments and silently ignores
any whose name is not one of `mu`, `beta`, `theta`, `delta`, `Sigma`,
`Gamma`: passing such an argument never raises an error and the call
behaves exactly as without it (the defaults are used instead). -/
theorem random_data_ignores_unrecognized (rs : RandomSource) (s N K : ℕ)
    (u : Bool) (key : String) (v : PyVal) (kwargs : Kwargs)
    (hk : recognizedKey key = false) :
    random_data rs s N K u ((key, v) :: kwargs) = random_data rs s N K u kwargs := by
  unfold random_data
  rw [resolveParams_cons_unrecognized K key v kwargs hk]

/-- Witness for C10: a misspelled keyword `bata` is ignored. -/
theorem random_data_ignores_unrecognized_witness :
    recognizedKey "bata" = false ∧
      random_data rsOne 0 1 1 true [("bata", .vec [5])] =
        random_data rsOne 0 1 1 true [] :=
  ⟨by decide,
    random_data_ignores_unrecognized rsOne 0 1 1 true "bata" (.vec [5]) [] (by decide)⟩

/-! ### C7: shape mismatches -/

/-- When the resolved parameters disagree among themselves the generating
process fails with a shape-mismatch error, provided the supplied covariance
matrices are valid (so no domain error preempts). -/
theorem random_data_core_shape_err (rs : RandomSource) (s N : ℕ) (p : Params)
    (u : Bool) (hS : IsValidCov p.Sigma) (hG : IsValidCov p.Gamma)
    (hbad : p.Sigma.length ≠ p.mu.length ∨ p.beta.length ≠ p.mu.length ∨
      p.theta.length ≠ p.beta.length) :
    random_data_core rs s N p u = .error .shapeMismatch := by
  unfold random_data_core
  by_cases hSl : p.Sigma.length = p.mu.length
  · rw [mvnSample_ok rs s p.mu p.Sigma N hSl hS]
    simp only [except_bind_ok]
    by_cases hbl : p.beta.length = p.mu.length
    · rw [matVecDot_ok _ _ _ hbl]
      simp only [except_bind_ok]
      by_cases hGl : p.Gamma.length = 2
      · rw [mvnSample_ok rs (s + 1 + N) (List.replicate 2 0) p.Gamma N
          (by simpa using hGl) hG]
        simp only [except_bind_ok]
        rcases hbad with h | h | h
        · exact absurd hSl h
        · exact absurd hbl h
        · rw [vecAdd_err _ _ (fun hc => h hc.symm), except_bind_error]
      · rw [mvnSample_shape_err rs (s + 1 + N) (List.replicate 2 0) p.Gamma N
          (fun hc => hGl (by simpa using hc.1)), except_bind_error]
    · rw [matVecDot_err _ _ _ hbl, except_bind_error]
  · rw [mvnSample_shape_err rs s p.mu p.Sigma N (fun hc => hSl hc.1),
      except_bind_error]

/-- C7 (amended): a supplied `beta` whose length differs from the covariate
dimension (the length of the resolved `mu`) makes `random_data` fail with a
shape-mismatch error and no partial output; more generally, with valid
supplied covariance matrices, the call fails with a shape-mismatch error
whenever the resolved `mu`, `beta`, `theta`, `Sigma` disagree among
themselves (`Sigma` not square with side `mu.length`, or `beta.length ≠
mu.length`, or `theta.length ≠ beta.length`).  `K` only fixes the defaults
of the unsupplied parameters. -/
theorem random_data_shape_mismatch (rs : RandomSource) (s N K : ℕ) (u : Bool)
    (kwargs : Kwargs)
    (hS : IsValidCov (resolveParams K kwargs).Sigma)
    (hG : IsValidCov (resolveParams K kwargs).Gamma)
    (hbad : (resolveParams K kwargs).Sigma.length ≠ (resolveParams K kwargs).mu.length ∨
      (resolveParams K kwargs).beta.length ≠ (resolveParams K kwargs).mu.length ∨
      (resolveParams K kwargs).theta.length ≠ (resolveParams K kwargs).beta.length) :
    random_data rs s N K u kwargs = .error .shapeMismatch := by
  unfold random_data
  exact random_data_core_shape_err rs s N _ u hS hG hbad

/-- Witness for C7 (amended): `K = 1` with a supplied `beta` of length 2. -/
theorem random_data_shape_mismatch_witness :
    (resolveParams 1 [("beta", PyVal.vec [1, 1])]).beta.length ≠
        (resolveParams 1 [("beta", PyVal.vec [1, 1])]).mu.length ∧
      random_data rsOne 0 0 1 false [("beta", PyVal.vec [1, 1])] =
        .error .shapeMismatch :=
  ⟨by decide,
    random_data_shape_mismatch rsOne 0 0 1 false [("beta", PyVal.vec [1, 1])]
      (isValidCov_identityMat 1) (isValidCov_identityMat 2)
      (Or.inr (Or.inl (by decide)))⟩

/-- The keyword arguments of the C7 counterexample: a mutually coherent set
of supplied parameters of dimension 1, while `K = 2`. -/
def kwargsM : Kwargs :=
  [("mu", .vec [0]), ("beta", .vec [1]), ("theta", .vec [1]), ("Sigma", .mat [[1]])]

/-- The 1×1 matrix `[[1]]` is a valid covariance matrix. -/
theorem isValidCov_single_one : IsValidCov [[(1 : ℝ)]] := by
  constructor
  · intro row hrow
    rw [List.mem_singleton.mp hrow]
    rfl
  · have h : toMatrix [[(1 : ℝ)]] 1 = 1 := by
      funext i j
      fin_cases i
      fin_cases j
      simp [toMatrix, mEntry, Matrix.one_apply]
    show Matrix.PosSemidef (toMatrix [[(1 : ℝ)]] 1)
    rw [h]
    exact Matrix.PosSemidef.one

theorem conform_kwargsM : Conform (resolveParams 2 kwargsM) := by
  exact ⟨isValidCov_single_one, rfl, isValidCov_identityMat 2, rfl, rfl, rfl⟩

/-- Counterexample to C7 as stated: with `K = 2` but `mu`, `beta`, `theta`
of length 1 and `Sigma` 1×1 supplied coherently, the call succeeds, even
though the supplied `mu` has length ≠ K. -/
theorem random_data_mismatched_K_succeeds :
    (resolveParams 2 kwargsM).mu.length = 1 ∧
      random_data rsOne 0 0 2 false kwargsM = .ok (.observed [] [] []) :=
  ⟨rfl, by
    rw [random_data_ok rsOne 0 0 2 false kwargsM conform_kwargsM, runPipeline_zero]
    rfl⟩

/-! ### C8: invalid covariance matrices raise the domain error -/

theorem random_data_core_sigma_domain_err (rs : RandomSource) (s N : ℕ)
    (p : Params) (u : Bool)
    (hshape : p.Sigma.length = p.mu.length ∧
      ∀ row ∈ p.Sigma, row.length = p.mu.length)
    (hbad : ¬Matrix.PosSemidef (toMatrix p.Sigma p.Sigma.length)) :
    random_data_core rs s N p u = .error .domainError := by
  unfold random_data_core
  rw [mvnSample_domain_err rs s p.mu p.Sigma N hshape hbad, except_bind_error]

theorem random_data_core_gamma_domain_err (rs : RandomSource) (s N : ℕ)
    (p : Params) (u : Bool) (hS : IsValidCov p.Sigma)
    (hSl : p.Sigma.length = p.mu.length) (hbl : p.beta.length = p.mu.length)
    (hshape : p.Gamma.length = 2 ∧ ∀ row ∈ p.Gamma, row.length = 2)
    (hbad : ¬Matrix.PosSemidef (toMatrix p.Gamma p.Gamma.length)) :
    random_data_core rs s N p u = .error .domainError := by
  unfold random_data_core
  rw [mvnSample_ok rs s p.mu p.Sigma N hSl hS]
  simp only [except_bind_ok]
  rw [matVecDot_ok _ _ _ hbl]
  simp only [except_bind_ok]
  rw [mvnSample_domain_err rs (s + 1 + N) (List.replicate 2 0) p.Gamma N
    ⟨by simpa using hshape.1, fun row hr => by simpa using hshape.2 row hr⟩ hbad,
    except_bind_error]

/-- C8: a supplied `Sigma` (or `Gamma`) that is shape-conforming but not a
valid — symmetric positive semidefinite — covariance matrix makes
`random_data` fail with the domain error of the multivariate-normal
sampling primitive; the error is surfaced to the caller and no output is
produced. -/
theorem random_data_invalid_cov_domain_err :
    (∀ (rs : RandomSource) (s N K : ℕ) (u : Bool) (kwargs : Kwargs),
      ((resolveParams K kwargs).Sigma.length = (resolveParams K kwargs).mu.length ∧
        ∀ row ∈ (resolveParams K kwargs).Sigma,
          row.length = (resolveParams K kwargs).mu.length) →
      ¬Matrix.PosSemidef (toMatrix (resolveParams K kwargs).Sigma
          (resolveParams K kwargs).Sigma.length) →
      random_data rs s N K u kwargs = .error .domainError) ∧
    (∀ (rs : RandomSource) (s N K : ℕ) (u : Bool) (kwargs : Kwargs),
      IsValidCov (resolveParams K kwargs).Sigma →
      (resolveParams K kwargs).Sigma.length = (resolveParams K kwargs).mu.length →
      (resolveParams K kwargs).beta.length = (resolveParams K kwargs).mu.length →
      ((resolveParams K kwargs).Gamma.length = 2 ∧
        ∀ row ∈ (resolveParams K kwargs).Gamma, row.length = 2) →
      ¬Matrix.PosSemidef (toMatrix (resolveParams K kwargs).Gamma
          (resolveParams K kwargs).Gamma.length) →
      random_data rs s N K u kwargs = .error .domainError) := by
  constructor
  · intro rs s N K u kwargs hshape hbad
    unfold random_data
    exact random_data_core_sigma_domain_err rs s N _ u hshape hbad
  · intro rs s N K u kwargs hS hSl hbl hshape hbad
    unfold random_data
    exact random_data_core_gamma_domain_err rs s N _ u hS hSl hbl hshape hbad

/-- The 1×1 matrix `[[-1]]` is not positive semidefinite. -/
theorem not_posSemidef_negOne : ¬Matrix.PosSemidef (toMatrix [[(-1 : ℝ)]] 1) := by
  intro hp
  have h := hp.2 (fun _ => 1)
  have h2 : Matrix.dotProduct (star fun _ : Fin 1 => (1 : ℝ))
      ((toMatrix [[(-1 : ℝ)]] 1).mulVec (fun _ => (1 : ℝ))) = -1 := by
    simp [Matrix.dotProduct, Matrix.mulVec, Fin.sum_univ_one, toMatrix, mEntry]
  rw [h2] at h
  linarith

/-- The 2×2 matrix `[[-1, 0], [0, -1]]` is not positive semidefinite. -/
theorem not_posSemidef_negTwo :
    ¬Matrix.PosSemidef (toMatrix [[(-1 : ℝ), 0], [0, -1]] 2) := by
  intro hp
  have h := hp.2 (fun _ => 1)
  have h2 : Matrix.dotProduct (star fun _ : Fin 2 => (1 : ℝ))
      ((toMatrix [[(-1 : ℝ), 0], [0, -1]] 2).mulVec (fun _ => (1 : ℝ))) = -2 := by
    simp [Matrix.dotProduct, Matrix.mulVec, Fin.sum_univ_two, toMatrix, mEntry]
    norm_num
  rw [h2] at h
  linarith

/-- Witness for C8: a non-PSD `Sigma` and a non-PSD `Gamma` each produce
the domain error. -/
theorem random_data_invalid_cov_domain_err_witness :
    ¬Matrix.PosSemidef (toMatrix (resolveParams 1 [("Sigma", PyVal.mat [[-1]])]).Sigma
        (resolveParams 1 [("Sigma", PyVal.mat [[-1]])]).Sigma.length) ∧
      random_data rsOne 0 1 1 false [("Sigma", PyVal.mat [[-1]])] =
        .error .domainError ∧
      random_data rsOne 0 1 1 false [("Gamma", PyVal.mat [[-1, 0], [0, -1]])] =
        .error .domainError := by
  refine ⟨not_posSemidef_negOne, ?_, ?_⟩
  · exact random_data_invalid_cov_domain_err.1 rsOne 0 1 1 false
      [("Sigma", PyVal.mat [[-1]])]
      ⟨rfl, fun row hr => by rw [List.mem_singleton.mp hr]; rfl⟩
      not_posSemidef_negOne
  · refine random_data_invalid_cov_domain_err.2 rsOne 0 1 1 false
      [("Gamma", PyVal.mat [[-1, 0], [0, -1]])]
      (isValidCov_identityMat 1) rfl rfl ⟨rfl, ?_⟩ not_posSemidef_negTwo
    intro row hr
    rcases List.mem_cons.mp hr with h | h
    · rw [h]
      rfl
    · rw [List.mem_singleton.mp h]
      rfl
